import Mathlib

/-!
# Verification of the `ppt_maker` repository

Shallow embedding of the two components of the repository:

* the content cropper `autocrop_image` (identical in `src/app.py` and
  `src/utils/generate_ppt.py` up to the padding constant: 20 in `app.py`,
  15 in `generate_ppt.py`), built on `skimage`:
  `io.imread`, `rgb2gray`, `sobel`, thresholding at 0.01, `np.argwhere`,
  per-axis min/max, padding, clamping and slicing;
* the deck assemblers: `create_presentation` in `src/app.py`
  (2 intro slides, one question+solution pair per image, 1 closing slide)
  and the module-level script in `src/utils/generate_ppt.py`
  (4 intro slides, one question slide plus a two-part solution per image,
  3 closing slides), both built on the slide primitives
  `add_standard_slide` / `add_question_slide`.

Numeric conventions of the embedding:

* pixel channels are 8-bit naturals (`io.imread` yields `uint8`);
* `rgb2gray` converts to float (`v / 255`) and uses the luminance weights
  `0.2125, 0.7154, 0.0721`; we scale gray values by `10000 * 255 = 2550000`
  so that the scaled gray of a pixel is the integer
  `2125*R + 7154*G + 721*B`;
* `skimage.filters.sobel` convolves with the kernels
  `[[1,2,1],[0,0,0],[-1,-2,-1]]/4` (and its transpose) in reflect mode and
  returns `sqrt(h^2 + v^2) / sqrt 2`; with `hS`, `vS` the convolutions by
  the *unnormalized* integer kernels of the *scaled* grays, the test
  `sobel > 0.01` is exactly `hS^2 + vS^2 > (0.01)^2 * 2 * (4*2550000)^2`,
  i.e. `hS*hS + vS*vS > 20808000000`, avoiding all floating point;
  the code's float64 arithmetic is embedded as exact arithmetic;
* slide geometry is in inches as exact rationals (`pptx.util.Inches`
  scales every length by the same positive constant 914400 EMU/inch, so
  all comparisons and linear positions transfer verbatim).
-/

/-! ## Content cropper (`autocrop_image`) -/

/-- An in-memory raster image as produced by `skimage.io.imread`:
its numpy `shape` (list of dimensions, e.g. `[H, W, C]`) and its pixel
array, `pixel y x c` being the 8-bit value of channel `c` at row `y`,
column `x`. -/
structure Img where
  shape : List Nat
  pixel : Nat → Nat → Nat → Nat

/-- Index reflection used by `scipy.ndimage.convolve` in its default
`reflect` mode `(d c b a | a b c d | d c b a)`: index `-1` maps to `0`,
index `n` maps to `n - 1`. -/
def reflIdx (n : Nat) (i : Int) : Nat :=
  if i < 0 then (-i - 1).toNat
  else if (n : Int) ≤ i then (2 * (n : Int) - 1 - i).toNat
  else i.toNat

/-- Scaled grayscale value of a pixel: `rgb2gray` is
`0.2125*R + 0.7154*G + 0.0721*B` on floats in `[0,1]`; scaled by
`10000 * 255` it is this integer. -/
def grayVal (img : Img) (y x : Nat) : Int :=
  2125 * (img.pixel y x 0 : Int) + 7154 * (img.pixel y x 1 : Int)
    + 721 * (img.pixel y x 2 : Int)

/-- Scaled gray value at possibly out-of-range integer coordinates,
resolved through boundary reflection (an `H × W` image). -/
def grayR (img : Img) (H W : Nat) (y x : Int) : Int :=
  grayVal img (reflIdx H y) (reflIdx W x)

/-- Horizontal Sobel convolution (unnormalized integer kernel
`[[1,2,1],[0,0,0],[-1,-2,-1]]`) of the scaled grays at pixel `(y, x)`. -/
def hS (img : Img) (H W : Nat) (y x : Nat) : Int :=
  (grayR img H W ((y : Int) - 1) ((x : Int) - 1)
      + 2 * grayR img H W ((y : Int) - 1) (x : Int)
      + grayR img H W ((y : Int) - 1) ((x : Int) + 1))
    - (grayR img H W ((y : Int) + 1) ((x : Int) - 1)
      + 2 * grayR img H W ((y : Int) + 1) (x : Int)
      + grayR img H W ((y : Int) + 1) ((x : Int) + 1))

/-- Vertical Sobel convolution (transposed kernel) of the scaled grays. -/
def vS (img : Img) (H W : Nat) (y x : Nat) : Int :=
  (grayR img H W ((y : Int) - 1) ((x : Int) - 1)
      + 2 * grayR img H W (y : Int) ((x : Int) - 1)
      + grayR img H W ((y : Int) + 1) ((x : Int) - 1))
    - (grayR img H W ((y : Int) - 1) ((x : Int) + 1)
      + 2 * grayR img H W (y : Int) ((x : Int) + 1)
      + grayR img H W ((y : Int) + 1) ((x : Int) + 1))

/-- `(0.01)^2 * 2 * (4 * 2550000)^2`: the squared, scaled form of the
edge threshold `0.01` applied to `sobel = sqrt(h^2+v^2)/sqrt 2`. -/
def sobelThresholdSq : Int := 20808000000

/-- The boolean content mask `sobel(grayscale) > threshold` at `(y, x)`. -/
def edgeAt (img : Img) (H W : Nat) (y x : Nat) : Bool :=
  decide (sobelThresholdSq < hS img H W y x * hS img H W y x
    + vS img H W y x * vS img H W y x)

/-- All pixel coordinates of an `H × W` image in row-major order. -/
def allPix (H W : Nat) : List (Nat × Nat) :=
  (List.range H).flatMap fun y => (List.range W).map fun x => (y, x)

/-- `np.argwhere(edges)`: the row-major list of coordinates of mask
pixels, as `(row, column)` pairs. -/
def coords (img : Img) (H W : Nat) : List (Nat × Nat) :=
  (allPix H W).filter fun c => edgeAt img H W c.1 c.2

/-- Minimum of a list of naturals (`coords.min(axis=0)` componentwise);
junk value 0 on the empty list, which the caller guards against. -/
def listMin : List Nat → Nat
  | [] => 0
  | a :: l => l.foldl min a

/-- Maximum of a list of naturals (`coords.max(axis=0)` componentwise). -/
def listMax : List Nat → Nat
  | [] => 0
  | a :: l => l.foldl max a

/-- Observable outcome of `autocrop_image` at its output path:
either the file written by `io.imsave` — the slice
`image[y0:y1, x0:x1]` of the (alpha-stripped) input, recorded by its
slice bounds and channel count — or a byte-identical copy of the input
file made by `shutil.copy`. -/
inductive CropOut where
  | wroteCrop (y0 x0 y1 x1 : Int) (channels : Nat)
  | copiedOriginal
deriving DecidableEq, Repr

/-- Body of the `try` block of `autocrop_image` on a successfully loaded
image. Errors (`Except.error`) model exceptions reaching the handler:
`image.shape[2]` raises `IndexError` on a 2-D array, and `rgb2gray`
raises on a channel count other than 3 (after the code strips a 4th,
alpha, channel). A found bounding box is padded and clamped exactly as
in the source (`max(0, ...)`, `min(shape, ...)` in Python ints, the
upper bounds being exclusive slice bounds). -/
def autocropCore (img : Img) (padding : Nat) : Except Unit CropOut :=
  match img.shape with
  | [H, W, c] =>
    let c' := if c = 4 then 3 else c
    if c' = 3 then
      let cs := coords img H W
      if cs = [] then
        .ok .copiedOriginal
      else
        let y0 : Int := max 0 ((listMin (cs.map Prod.fst) : Int) - padding)
        let x0 : Int := max 0 ((listMin (cs.map Prod.snd) : Int) - padding)
        let y1 : Int := min (H : Int) ((listMax (cs.map Prod.fst) : Int) + padding)
        let x1 : Int := min (W : Int) ((listMax (cs.map Prod.snd) : Int) + padding)
        .ok (.wroteCrop y0 x0 y1 x1 3)
    else .error ()
  | _ => .error ()

/-- What `io.imread(input_path)` produced: a loaded array, or an
exception (corrupt, empty or unreadable file). -/
inductive LoadInput where
  | err
  | ok (img : Img)

/-- `autocrop_image(input_path, output_path, threshold=0.01)`: the whole
function, including its `try/except` boundary — every exception from
load, filtering or cropping degrades to `shutil.copy` of the original. -/
def autocrop_image (input : LoadInput) (padding : Nat) : CropOut :=
  match input with
  | .err => .copiedOriginal
  | .ok img =>
    match autocropCore img padding with
    | .ok out => out
    | .error _ => .copiedOriginal

/-- Padding constant of the `autocrop_image` in `src/app.py`. -/
def appPadding : Nat := 20

/-- Padding constant of the `autocrop_image` in
`src/utils/generate_ppt.py`. -/
def scriptPadding : Nat := 15

/-! ## Deck assembler

Slides are embedded as the ordered list of `spTree` children of a
`python-pptx` slide. A slide freshly added from the blank layout
(`slide_layouts[6]`) carries exactly two non-shape infrastructure
children (`nvGrpSpPr`, `grpSpPr`), modelled by `SpElem.infra`;
`add_picture` and `add_textbox` append to the tree, and
`_spTree.remove` / `_spTree.insert(2, ...)` are list removal and list
insertion at position 2. The tree order is back-to-front z-order. -/

/-- A picture shape: file path, then position and size in inches. -/
structure Picture where
  path : String
  left : Rat
  top : Rat
  width : Rat
  height : Rat
deriving DecidableEq, Repr

/-- A text box shape: position and size in inches, the text of its first
paragraph, and that paragraph's font styling. -/
structure TextBox where
  left : Rat
  top : Rat
  width : Rat
  height : Rat
  text : String
  fontSizePt : Nat
  bold : Bool
  colorR : Nat
  colorG : Nat
  colorB : Nat
deriving DecidableEq, Repr

/-- One child of a slide's `spTree`. -/
inductive SpElem where
  | infra
  | pic (p : Picture)
  | tx (t : TextBox)
deriving DecidableEq, Repr

/-- A slide: its `spTree` children, in back-to-front z-order. -/
abbrev Slide := List SpElem

/-- Python `list.remove`-style removal of the first occurrence. -/
def eraseFirst : Slide → SpElem → Slide
  | [], _ => []
  | e :: rest, x => if e = x then rest else e :: eraseFirst rest x

/-- Python `list.insert`-style insertion at an index (clamping to the
end when the index is past it). -/
def insertAt : Nat → SpElem → Slide → Slide
  | 0, x, l => x :: l
  | _ + 1, x, [] => [x]
  | n + 1, x, a :: l => a :: insertAt n x l

/-- The background picture added first on every slide: stretched from
`(0,0)` to the full `16 × 9` canvas. -/
def bgPicture (bgPath : String) : Picture :=
  ⟨bgPath, 0, 0, 16, 9⟩

/-- The fixed title text box: position `(1, 0.5)`, size `14 × 1.5`,
44 pt bold white text. -/
def titleBox (titleText : String) : TextBox :=
  ⟨1, 1/2, 14, 3/2, titleText, 44, true, 255, 255, 255⟩

/-- The slide built by the body of `add_standard_slide` when the
background picture loads: blank-layout slide, `add_picture` of the
background, `_spTree.remove` + `_spTree.insert(2, ...)` of that picture,
then `add_textbox` for the title. -/
def stdSlide (bgPath titleText : String) : Slide :=
  let s0 : Slide := [.infra, .infra]
  let pic : SpElem := .pic (bgPicture bgPath)
  let s1 := s0 ++ [pic]
  let s2 := insertAt 2 pic (eraseFirst s1 pic)
  s2 ++ [.tx (titleBox titleText)]

/-- External collaborators of the deck assembler: whether
`add_picture(background_image_path, ...)` succeeds, and what
`PIL.Image.open(image_path)` / `add_picture(image_path, ...)` yields for
a content image — `some (widthPx, heightPx)` on success, `none` when the
file is missing or fails to decode. -/
structure Env where
  bgOk : Bool
  readImage : String → Option (Nat × Nat)

/-- `add_standard_slide(title_text)`: raises (propagates) iff the
background image cannot be added; no `try` protects it. -/
def add_standard_slide (env : Env) (bgPath titleText : String) :
    Except Unit Slide :=
  if env.bgOk then .ok (stdSlide bgPath titleText) else .error ()

/-- Fit-to-box of `add_question_slide`: given the content image's aspect
ratio `r = width/height`, the `(new_width, new_height)` chosen for the
`5.0 × 7.0` box. The EMU comparison `max_height * aspect_ratio >
max_width` is the stated inequality scaled by 914400. -/
def fitSize (r : Rat) : Rat × Rat :=
  if 7 * r > 5 then (5, 5 / r) else (7 * r, 7)

/-- The content picture placed by `add_question_slide` for an image of
`w × h` pixels: fit to the `5.0 × 7.0` box and centered in the content
region anchored at `(0.5, 1.5)`. -/
def contentPicture (path : String) (w h : Nat) : Picture :=
  let r : Rat := (w : Rat) / (h : Rat)
  ⟨path, 1/2 + (5 - (fitSize r).1) / 2, 3/2 + (7 - (fitSize r).2) / 2,
    (fitSize r).1, (fitSize r).2⟩

/-- `add_question_slide(question_num, image_path)`: a standard slide
titled `"Question {question_num}"`, then a `try` block that opens the
image, computes the fit and appends the picture; any failure there
(unreadable image, or a zero pixel height making the aspect-ratio
division raise) is swallowed, leaving the slide without its image. -/
def add_question_slide (env : Env) (bgPath : String) (questionNum : Nat)
    (imagePath : String) : Except Unit Slide := do
  let slide ← add_standard_slide env bgPath
    ("Question " ++ toString questionNum)
  match env.readImage imagePath with
  | none => pure slide
  | some (w, h) =>
    if h = 0 then pure slide
    else pure (slide ++ [.pic (contentPicture imagePath w h)])

/-- Path of the `i`-th cropped image written by the cropping loop of
`create_presentation`: `cropped_q{question_num}.png` inside the
per-request cropped folder. -/
def croppedPath (folder : String) (n : Nat) : String :=
  folder ++ "/cropped_q" ++ toString n ++ ".png"

/-- The ordered `(input, output)` pairs of `autocrop_image` calls issued
by the cropping loop of `create_presentation`: the `i`-th (0-based)
input file is cropped into `cropped_q{i+1}.png`. -/
def cropOps (folder : String) (files : List String) :
    List (String × String) :=
  files.enum.map fun ip => (ip.2, croppedPath folder (ip.1 + 1))

/-- Title of the first deck slide in both sources. -/
def introTitle : String :=
  "Advanced Problems in Functions and Calculus\n\nA Practice Set"

/-- The question/solution loop of `create_presentation` over the
enumerated cropped-image paths: for each index `i`, a question slide
`i+1` followed by one solution slide. -/
def qsSlides (env : Env) (bgPath folder : String) :
    List (Nat × String) → Except Unit (List Slide)
  | [] => pure []
  | (i, _) :: rest => do
    let q ← add_question_slide env bgPath (i + 1) (croppedPath folder (i + 1))
    let s ← add_standard_slide env bgPath
      ("Solution for Question " ++ toString (i + 1))
    let t ← qsSlides env bgPath folder rest
    pure (q :: s :: t)

/-- `create_presentation(question_files, background_image_path, ...)` of
`src/app.py`, after its cropping loop (modelled by `cropOps`): the deck
as the ordered list of slides — 2 intro slides, the question/solution
pairs in input order, 1 closing slide. -/
def create_presentation (env : Env) (bgPath folder : String)
    (questionFiles : List String) : Except Unit (List Slide) := do
  let s1 ← add_standard_slide env bgPath introTitle
  let s2 ← add_standard_slide env bgPath "Welcome & Objectives"
  let qs ← qsSlides env bgPath folder questionFiles.enum
  let sLast ← add_standard_slide env bgPath "Thank You & Q/A"
  pure ([s1, s2] ++ qs ++ [sLast])

/-! ### The standalone script `src/utils/generate_ppt.py` -/

/-- `BACKGROUND_IMAGE` of the script. -/
def scriptBg : String := "background.jpg"

/-- Cropped-image path used by the script's slide loop. -/
def scriptCroppedPath (n : Nat) : String :=
  "cropped_questions/cropped_q" ++ toString n ++ ".png"

/-- The question/solution loop of the script: for each `i` in
`range(num_questions_found)`, a question slide `i+1` followed by a
two-part solution. -/
def scriptQsSlides (env : Env) : List Nat → Except Unit (List Slide)
  | [] => pure []
  | i :: rest => do
    let q ← add_question_slide env scriptBg (i + 1) (scriptCroppedPath (i + 1))
    let s1 ← add_standard_slide env scriptBg
      ("Solution for Question " ++ toString (i + 1) ++ " (Part 1)")
    let s2 ← add_standard_slide env scriptBg
      ("Solution for Question " ++ toString (i + 1) ++ " (Part 2)")
    let t ← scriptQsSlides env rest
    pure (q :: s1 :: s2 :: t)

/-- The deck built by the module-level code of
`src/utils/generate_ppt.py` for `n` question images: 4 intro slides,
`n` (question, solution part 1, solution part 2) triples, 3 closing
slides. -/
def script_presentation (env : Env) (n : Nat) : Except Unit (List Slide) := do
  let s1 ← add_standard_slide env scriptBg introTitle
  let s2 ← add_standard_slide env scriptBg "Welcome & Objectives"
  let s3 ← add_standard_slide env scriptBg "How to Use This Deck"
  let s4 ← add_standard_slide env scriptBg "Table of Contents"
  let qs ← scriptQsSlides env (List.range n)
  let e1 ← add_standard_slide env scriptBg "End of Problem Set"
  let e2 ← add_standard_slide env scriptBg "Key Takeaways & Formulas"
  let e3 ← add_standard_slide env scriptBg "Thank You & Q/A"
  pure ([s1, s2, s3, s4] ++ qs ++ [e1, e2, e3])

/-- The script's up-front validation (its `exit()` calls modelled as
errors): missing question folder, missing background image, or an empty
glob result each abort before any slide is built. -/
def script_main (origFolderExists bgExists : Bool) (env : Env)
    (files : List String) : Except Unit (List Slide) :=
  if ¬ origFolderExists then .error ()
  else if ¬ bgExists then .error ()
  else if files = [] then .error ()
  else script_presentation env files.length

/-! ### Observation functions on slides -/

/-- Whether an `spTree` child is one of the two infrastructure
children (not a shape). -/
def isInfra : SpElem → Bool
  | .infra => true
  | _ => false

/-- The shapes of a slide in back-to-front z-order. -/
def slideShapes (s : Slide) : List SpElem :=
  s.filter fun e => !(isInfra e)

/-- The text of the first text box of a slide (its title). -/
def slideTitle (s : Slide) : Option String :=
  (s.filterMap fun e => match e with
    | .tx t => some t.text
    | _ => none).head?

/-- All pictures of a slide in back-to-front z-order. -/
def slidePics (s : Slide) : List Picture :=
  s.filterMap fun e => match e with
    | .pic p => some p
    | _ => none

/-! ### Happy-path forms of the slide builders -/

/-- The slide `add_question_slide` produces when the background loads:
the standard slide, plus the fitted content picture when the content
image is readable (and has nonzero pixel height). -/
def qSlideOk (env : Env) (bgPath : String) (n : Nat) (imagePath : String) :
    Slide :=
  match env.readImage imagePath with
  | none => stdSlide bgPath ("Question " ++ toString n)
  | some (w, h) =>
    if h = 0 then stdSlide bgPath ("Question " ++ toString n)
    else stdSlide bgPath ("Question " ++ toString n)
      ++ [.pic (contentPicture imagePath w h)]

/-- The question/solution pairs when the background loads. -/
def qsSlidesOk (env : Env) (bgPath folder : String) :
    List (Nat × String) → List Slide
  | [] => []
  | (i, _) :: rest =>
    qSlideOk env bgPath (i + 1) (croppedPath folder (i + 1))
      :: stdSlide bgPath ("Solution for Question " ++ toString (i + 1))
      :: qsSlidesOk env bgPath folder rest

/-- The script's question/solution triples when the background loads. -/
def scriptQsSlidesOk (env : Env) : List Nat → List Slide
  | [] => []
  | i :: rest =>
    qSlideOk env scriptBg (i + 1) (scriptCroppedPath (i + 1))
      :: stdSlide scriptBg ("Solution for Question " ++ toString (i + 1) ++ " (Part 1)")
      :: stdSlide scriptBg ("Solution for Question " ++ toString (i + 1) ++ " (Part 2)")
      :: scriptQsSlidesOk env rest

/-- The rectangular-blob test image. -/
def rectBlobImg (H W r0 r1 c0 c1 : Nat) (bpx gpx : Nat → Nat) : Img :=
  ⟨[H, W, 3], fun y x ch =>
    if r0 ≤ y ∧ y ≤ r1 ∧ c0 ≤ x ∧ x ≤ c1 then bpx ch else gpx ch⟩

/-- Scaled gray of a uniform color given by its channel values. -/
def colorGray (f : Nat → Nat) : Int :=
  2125 * (f 0 : Int) + 7154 * (f 1 : Int) + 721 * (f 2 : Int)

theorem stdSlide_eq (bgPath titleText : String) :
    stdSlide bgPath titleText =
      [.infra, .infra, .pic (bgPicture bgPath), .tx (titleBox titleText)] := by
  simp [stdSlide, eraseFirst, insertAt]

theorem add_standard_slide_ok (env : Env) (h : env.bgOk = true)
    (bgPath titleText : String) :
    add_standard_slide env bgPath titleText = .ok (stdSlide bgPath titleText) := by
  simp [add_standard_slide, h]

theorem add_standard_slide_err (env : Env) (h : env.bgOk = false)
    (bgPath titleText : String) :
    add_standard_slide env bgPath titleText = .error () := by
  simp [add_standard_slide, h]

theorem add_question_slide_ok (env : Env) (h : env.bgOk = true)
    (bgPath : String) (n : Nat) (imagePath : String) :
    add_question_slide env bgPath n imagePath =
      .ok (qSlideOk env bgPath n imagePath) := by
  rw [add_question_slide, add_standard_slide_ok env h, qSlideOk]
  cases hr : env.readImage imagePath with
  | none => rfl
  | some wh =>
    obtain ⟨w, hpx⟩ := wh
    by_cases h0 : hpx = 0 <;> simp only [h0, if_true, if_false, ite_true,
      ite_false, eq_self_iff_true, not_true, not_false_iff] <;> rfl

theorem qsSlides_ok (env : Env) (h : env.bgOk = true) (bgPath folder : String) :
    ∀ ps : List (Nat × String),
      qsSlides env bgPath folder ps = .ok (qsSlidesOk env bgPath folder ps)
  | [] => rfl
  | (i, p) :: rest => by
    rw [qsSlides, qsSlidesOk]
    rw [add_question_slide_ok env h, add_standard_slide_ok env h,
      qsSlides_ok env h bgPath folder rest]
    rfl

theorem create_presentation_ok (env : Env) (h : env.bgOk = true)
    (bgPath folder : String) (questionFiles : List String) :
    create_presentation env bgPath folder questionFiles =
      .ok ([stdSlide bgPath introTitle, stdSlide bgPath "Welcome & Objectives"]
        ++ qsSlidesOk env bgPath folder questionFiles.enum
        ++ [stdSlide bgPath "Thank You & Q/A"]) := by
  rw [create_presentation, add_standard_slide_ok env h,
    add_standard_slide_ok env h, qsSlides_ok env h,
    add_standard_slide_ok env h]
  rfl

theorem create_presentation_err (env : Env) (h : env.bgOk = false)
    (bgPath folder : String) (questionFiles : List String) :
    create_presentation env bgPath folder questionFiles = .error () := by
  rw [create_presentation, add_standard_slide_err env h]
  rfl

theorem qsSlidesOk_length (env : Env) (bgPath folder : String) :
    ∀ ps : List (Nat × String),
      (qsSlidesOk env bgPath folder ps).length = 2 * ps.length
  | [] => rfl
  | (i, p) :: rest => by
    rw [qsSlidesOk]
    simp [qsSlidesOk_length env bgPath folder rest]
    ring

/-! ### Script happy path -/

theorem scriptQsSlides_ok (env : Env) (h : env.bgOk = true) :
    ∀ l : List Nat, scriptQsSlides env l = .ok (scriptQsSlidesOk env l)
  | [] => rfl
  | i :: rest => by
    rw [scriptQsSlides, scriptQsSlidesOk]
    rw [add_question_slide_ok env h, add_standard_slide_ok env h,
      add_standard_slide_ok env h, scriptQsSlides_ok env h rest]
    rfl

theorem script_presentation_ok (env : Env) (h : env.bgOk = true) (n : Nat) :
    script_presentation env n =
      .ok ([stdSlide scriptBg introTitle,
        stdSlide scriptBg "Welcome & Objectives",
        stdSlide scriptBg "How to Use This Deck",
        stdSlide scriptBg "Table of Contents"]
      ++ scriptQsSlidesOk env (List.range n)
      ++ [stdSlide scriptBg "End of Problem Set",
        stdSlide scriptBg "Key Takeaways & Formulas",
        stdSlide scriptBg "Thank You & Q/A"]) := by
  rw [script_presentation]
  rw [add_standard_slide_ok env h, add_standard_slide_ok env h,
    add_standard_slide_ok env h, add_standard_slide_ok env h,
    scriptQsSlides_ok env h, add_standard_slide_ok env h,
    add_standard_slide_ok env h, add_standard_slide_ok env h]
  rfl

theorem scriptQsSlidesOk_length (env : Env) :
    ∀ l : List Nat, (scriptQsSlidesOk env l).length = 3 * l.length
  | [] => rfl
  | i :: rest => by
    rw [scriptQsSlidesOk]
    simp [scriptQsSlidesOk_length env rest]
    ring

/-! ### Per-slide observations -/

theorem slideTitle_stdSlide (bgPath titleText : String) :
    slideTitle (stdSlide bgPath titleText) = some titleText := by
  simp [stdSlide_eq, slideTitle, titleBox]

theorem slideTitle_append_pic (s : Slide) (p : Picture) :
    slideTitle (s ++ [.pic p]) = slideTitle s := by
  simp [slideTitle]

theorem slideTitle_qSlideOk (env : Env) (bgPath : String) (n : Nat)
    (imagePath : String) :
    slideTitle (qSlideOk env bgPath n imagePath) =
      some ("Question " ++ toString n) := by
  rw [qSlideOk]
  cases hr : env.readImage imagePath with
  | none => exact slideTitle_stdSlide ..
  | some wh =>
    obtain ⟨w, hpx⟩ := wh
    by_cases h0 : hpx = 0
    · simp only [h0, ite_true]
      exact slideTitle_stdSlide ..
    · simp only [h0, ite_false]
      rw [slideTitle_append_pic]
      exact slideTitle_stdSlide ..

theorem slideShapes_stdSlide (bgPath titleText : String) :
    slideShapes (stdSlide bgPath titleText) =
      [.pic (bgPicture bgPath), .tx (titleBox titleText)] := by
  simp [stdSlide_eq, slideShapes, isInfra]

theorem slidePics_stdSlide (bgPath titleText : String) :
    slidePics (stdSlide bgPath titleText) = [bgPicture bgPath] := by
  simp [stdSlide_eq, slidePics]

theorem slidePics_append_pic (s : Slide) (p : Picture) :
    slidePics (s ++ [.pic p]) = slidePics s ++ [p] := by
  simp [slidePics]

theorem slideShapes_qSlideOk (env : Env) (bgPath : String) (n : Nat)
    (imagePath : String) :
    ∃ rest, slideShapes (qSlideOk env bgPath n imagePath) =
      .pic (bgPicture bgPath) :: rest := by
  rw [qSlideOk]
  cases hr : env.readImage imagePath with
  | none => exact ⟨_, slideShapes_stdSlide ..⟩
  | some wh =>
    obtain ⟨w, hpx⟩ := wh
    by_cases h0 : hpx = 0
    · simp only [h0, ite_true]
      exact ⟨_, slideShapes_stdSlide ..⟩
    · simp only [h0, ite_false]
      refine ⟨[.tx (titleBox ("Question " ++ toString n)),
        .pic (contentPicture imagePath w hpx)], ?_⟩
      simp [slideShapes, stdSlide_eq, isInfra]

/-! ### Ordered titles and indexed access into the deck -/

theorem qsSlidesOk_titles (env : Env) (bgPath folder : String) :
    ∀ (l : List String) (n : Nat),
      (qsSlidesOk env bgPath folder (List.enumFrom n l)).map slideTitle =
        (List.range' (n + 1) l.length).flatMap fun k =>
          [some ("Question " ++ toString k),
           some ("Solution for Question " ++ toString k)]
  | [], n => rfl
  | a :: l, n => by
    rw [List.enumFrom, qsSlidesOk, List.length_cons, List.range'_succ]
    simp only [List.map_cons, List.flatMap_cons]
    rw [slideTitle_qSlideOk, slideTitle_stdSlide,
      qsSlidesOk_titles env bgPath folder l (n + 1)]
    rfl

theorem scriptQsSlidesOk_titles (env : Env) :
    ∀ (l : List Nat),
      (scriptQsSlidesOk env l).map slideTitle =
        l.flatMap fun i =>
          [some ("Question " ++ toString (i + 1)),
           some ("Solution for Question " ++ toString (i + 1) ++ " (Part 1)"),
           some ("Solution for Question " ++ toString (i + 1) ++ " (Part 2)")]
  | [] => rfl
  | i :: l => by
    rw [scriptQsSlidesOk]
    simp only [List.map_cons, List.flatMap_cons]
    rw [slideTitle_qSlideOk, slideTitle_stdSlide, slideTitle_stdSlide,
      scriptQsSlidesOk_titles env l]
    rfl

theorem qsSlidesOk_getElem_even (env : Env) (bgPath folder : String) :
    ∀ (l : List String) (n k : Nat),
      (qsSlidesOk env bgPath folder (List.enumFrom n l))[2 * k]? =
        (l[k]?).map fun _ =>
          qSlideOk env bgPath (n + k + 1) (croppedPath folder (n + k + 1))
  | [], n, k => by simp [List.enumFrom, qsSlidesOk]
  | a :: l, n, 0 => by
    rw [List.enumFrom, qsSlidesOk]
    simp
  | a :: l, n, k + 1 => by
    rw [List.enumFrom, qsSlidesOk]
    have h2 : 2 * (k + 1) = 2 * k + 1 + 1 := by ring
    rw [h2, List.getElem?_cons_succ, List.getElem?_cons_succ,
      qsSlidesOk_getElem_even env bgPath folder l (n + 1) k,
      List.getElem?_cons_succ]
    have h3 : n + 1 + k + 1 = n + (k + 1) + 1 := by ring
    rw [h3]

theorem qsSlidesOk_getElem_odd (env : Env) (bgPath folder : String) :
    ∀ (l : List String) (n k : Nat),
      (qsSlidesOk env bgPath folder (List.enumFrom n l))[2 * k + 1]? =
        (l[k]?).map fun _ =>
          stdSlide bgPath ("Solution for Question " ++ toString (n + k + 1))
  | [], n, k => by simp [List.enumFrom, qsSlidesOk]
  | a :: l, n, 0 => by
    rw [List.enumFrom, qsSlidesOk]
    simp
  | a :: l, n, k + 1 => by
    rw [List.enumFrom, qsSlidesOk]
    have h2 : 2 * (k + 1) + 1 = 2 * k + 1 + 1 + 1 := by ring
    rw [h2, List.getElem?_cons_succ, List.getElem?_cons_succ,
      qsSlidesOk_getElem_odd env bgPath folder l (n + 1) k,
      List.getElem?_cons_succ]
    have h3 : n + 1 + k + 1 = n + (k + 1) + 1 := by ring
    rw [h3]

theorem qsSlidesOk_mem (env : Env) (bgPath folder : String) :
    ∀ (ps : List (Nat × String)) (s : Slide),
      s ∈ qsSlidesOk env bgPath folder ps →
        (∃ n p, s = qSlideOk env bgPath n p) ∨ ∃ t, s = stdSlide bgPath t
  | [], s, h => by simp [qsSlidesOk] at h
  | (i, p) :: rest, s, h => by
    rw [qsSlidesOk] at h
    simp only [List.mem_cons] at h
    rcases h with h | h | h
    · exact Or.inl ⟨i + 1, croppedPath folder (i + 1), h⟩
    · exact Or.inr ⟨_, h⟩
    · exact qsSlidesOk_mem env bgPath folder rest s h

theorem scriptQsSlidesOk_mem (env : Env) :
    ∀ (l : List Nat) (s : Slide),
      s ∈ scriptQsSlidesOk env l →
        (∃ n p, s = qSlideOk env scriptBg n p) ∨ ∃ t, s = stdSlide scriptBg t
  | [], s, h => by simp [scriptQsSlidesOk] at h
  | i :: rest, s, h => by
    rw [scriptQsSlidesOk] at h
    simp only [List.mem_cons] at h
    rcases h with h | h | h | h
    · exact Or.inl ⟨i + 1, scriptCroppedPath (i + 1), h⟩
    · exact Or.inr ⟨_, h⟩
    · exact Or.inr ⟨_, h⟩
    · exact scriptQsSlidesOk_mem env rest s h

/-! ## A single rectangular content blob on a uniform background

`rectBlobImg H W r0 r1 c0 c1 bpx gpx` is the `H × W` 3-channel image
whose pixels inside the axis-aligned rectangle with inclusive row range
`[r0, r1]` and column range `[c0, c1]` have the channel values `bpx`,
and all others the background channel values `gpx`. -/

theorem grayVal_rectBlob (H W r0 r1 c0 c1 : Nat) (bpx gpx : Nat → Nat)
    (y x : Nat) :
    grayVal (rectBlobImg H W r0 r1 c0 c1 bpx gpx) y x =
      if r0 ≤ y ∧ y ≤ r1 ∧ c0 ≤ x ∧ x ≤ c1
      then colorGray bpx else colorGray gpx := by
  simp only [grayVal, rectBlobImg]
  split <;> rfl

theorem grayVal_rectBlob_in (H W r0 r1 c0 c1 : Nat) (bpx gpx : Nat → Nat)
    (y x : Nat) (h1 : r0 ≤ y) (h2 : y ≤ r1) (h3 : c0 ≤ x) (h4 : x ≤ c1) :
    grayVal (rectBlobImg H W r0 r1 c0 c1 bpx gpx) y x = colorGray bpx := by
  rw [grayVal_rectBlob, if_pos ⟨h1, h2, h3, h4⟩]

theorem grayVal_rectBlob_bg (H W r0 r1 c0 c1 : Nat) (bpx gpx : Nat → Nat)
    (y x : Nat) (h : ¬(r0 ≤ y ∧ y ≤ r1 ∧ c0 ≤ x ∧ x ≤ c1)) :
    grayVal (rectBlobImg H W r0 r1 c0 c1 bpx gpx) y x = colorGray gpx := by
  rw [grayVal_rectBlob, if_neg h]

theorem reflIdx_sub_one {H y : Nat} (h : y < H) :
    reflIdx H ((y : Int) - 1) = y - 1 := by
  rw [reflIdx]
  split
  · omega
  · rw [if_neg (by omega)]
    omega

theorem reflIdx_self {H y : Nat} (h : y < H) : reflIdx H (y : Int) = y := by
  rw [reflIdx, if_neg (by omega), if_neg (by omega)]
  omega

theorem reflIdx_add_one {H y : Nat} (h : y < H) :
    reflIdx H ((y : Int) + 1) = min (y + 1) (H - 1) := by
  rw [reflIdx, if_neg (by omega)]
  split <;> omega

/-! ### Minimum and maximum of nonempty lists of naturals -/

theorem foldl_min_le_init : ∀ (l : List Nat) (a : Nat), l.foldl min a ≤ a
  | [], a => le_refl a
  | b :: l, a =>
    le_trans (foldl_min_le_init l (min a b)) (min_le_left a b)

theorem foldl_min_le_mem :
    ∀ (l : List Nat) (a b : Nat), b ∈ l → l.foldl min a ≤ b
  | [], _, b, h => absurd h (List.not_mem_nil b)
  | c :: l, a, b, h => by
    rcases List.mem_cons.mp h with h | h
    · subst h
      exact le_trans (foldl_min_le_init l (min a b)) (min_le_right a b)
    · exact foldl_min_le_mem l (min a c) b h

theorem foldl_min_cases :
    ∀ (l : List Nat) (a : Nat), l.foldl min a = a ∨ l.foldl min a ∈ l
  | [], a => Or.inl rfl
  | b :: l, a => by
    rw [List.foldl_cons]
    rcases foldl_min_cases l (min a b) with h | h
    · rw [h]
      rcases min_choice a b with hm | hm
      · exact Or.inl hm
      · rw [hm]
        exact Or.inr (List.mem_cons_self b l)
    · exact Or.inr (List.mem_cons_of_mem b h)

theorem listMin_le {l : List Nat} {b : Nat} (h : b ∈ l) : listMin l ≤ b := by
  cases l with
  | nil => exact absurd h (List.not_mem_nil b)
  | cons a t =>
    rw [listMin]
    rcases List.mem_cons.mp h with h | h
    · subst h
      exact foldl_min_le_init t b
    · exact foldl_min_le_mem t a b h

theorem listMin_mem {l : List Nat} (h : l ≠ []) : listMin l ∈ l := by
  cases l with
  | nil => exact absurd rfl h
  | cons a t =>
    rw [listMin]
    rcases foldl_min_cases t a with h | h
    · rw [h]; exact List.mem_cons_self a t
    · exact List.mem_cons_of_mem a h

theorem foldl_max_init_le : ∀ (l : List Nat) (a : Nat), a ≤ l.foldl max a
  | [], a => le_refl a
  | b :: l, a =>
    le_trans (le_max_left a b) (foldl_max_init_le l (max a b))

theorem foldl_max_mem_le :
    ∀ (l : List Nat) (a b : Nat), b ∈ l → b ≤ l.foldl max a
  | [], _, b, h => absurd h (List.not_mem_nil b)
  | c :: l, a, b, h => by
    rcases List.mem_cons.mp h with h | h
    · subst h
      exact le_trans (le_max_right a b) (foldl_max_init_le l (max a b))
    · exact foldl_max_mem_le l (max a c) b h

theorem foldl_max_cases :
    ∀ (l : List Nat) (a : Nat), l.foldl max a = a ∨ l.foldl max a ∈ l
  | [], a => Or.inl rfl
  | b :: l, a => by
    rw [List.foldl_cons]
    rcases foldl_max_cases l (max a b) with h | h
    · rw [h]
      rcases max_choice a b with hm | hm
      · exact Or.inl hm
      · rw [hm]
        exact Or.inr (List.mem_cons_self b l)
    · exact Or.inr (List.mem_cons_of_mem b h)

theorem listMax_le {l : List Nat} {b : Nat} (h : b ∈ l) : b ≤ listMax l := by
  cases l with
  | nil => exact absurd h (List.not_mem_nil b)
  | cons a t =>
    rw [listMax]
    rcases List.mem_cons.mp h with h | h
    · subst h
      exact foldl_max_init_le t b
    · exact foldl_max_mem_le t a b h

theorem listMax_mem {l : List Nat} (h : l ≠ []) : listMax l ∈ l := by
  cases l with
  | nil => exact absurd rfl h
  | cons a t =>
    rw [listMax]
    rcases foldl_max_cases t a with h | h
    · rw [h]; exact List.mem_cons_self a t
    · exact List.mem_cons_of_mem a h

theorem listMin_eq {l : List Nat} {m : Nat} (hmem : m ∈ l)
    (hlb : ∀ b ∈ l, m ≤ b) : listMin l = m :=
  le_antisymm (listMin_le hmem)
    (hlb _ (listMin_mem (List.ne_nil_of_mem hmem)))

theorem listMax_eq {l : List Nat} {m : Nat} (hmem : m ∈ l)
    (hub : ∀ b ∈ l, b ≤ m) : listMax l = m :=
  le_antisymm (hub _ (listMax_mem (List.ne_nil_of_mem hmem)))
    (listMax_le hmem)

/-! ### Where content-mask pixels can lie for the blob image -/

theorem mem_allPix {H W : Nat} {c : Nat × Nat} :
    c ∈ allPix H W ↔ c.1 < H ∧ c.2 < W := by
  obtain ⟨y, x⟩ := c
  simp only [allPix, List.mem_flatMap, List.mem_map, List.mem_range]
  constructor
  · rintro ⟨a, ha, b, hb, hab⟩
    obtain ⟨rfl, rfl⟩ := Prod.mk.injEq .. |>.mp hab.symm
    exact ⟨ha, hb⟩
  · rintro ⟨h1, h2⟩
    exact ⟨y, h1, x, h2, rfl⟩

theorem mem_coords {img : Img} {H W : Nat} {c : Nat × Nat} :
    c ∈ coords img H W ↔
      c.1 < H ∧ c.2 < W ∧ edgeAt img H W c.1 c.2 = true := by
  rw [coords, List.mem_filter, mem_allPix, and_assoc]

/-- Away from the one-pixel ring around the blob rectangle, every pixel
of the 3×3 neighbourhood (boundary-reflected) is background, so both
Sobel responses vanish and the mask is off. -/
theorem edgeAt_rectBlob_out (H W r0 r1 c0 c1 : Nat) (bpx gpx : Nat → Nat)
    (y x : Nat) (hy : y < H) (hx : x < W)
    (hout : y + 1 < r0 ∨ r1 + 1 < y ∨ x + 1 < c0 ∨ c1 + 1 < x) :
    edgeAt (rectBlobImg H W r0 r1 c0 c1 bpx gpx) H W y x = false := by
  have hno : ∀ p q : Nat, p ≤ y + 1 → y ≤ p + 1 → q ≤ x + 1 → x ≤ q + 1 →
      grayVal (rectBlobImg H W r0 r1 c0 c1 bpx gpx) p q = colorGray gpx := by
    intro p q h1 h2 h3 h4
    exact grayVal_rectBlob_bg H W r0 r1 c0 c1 bpx gpx p q (by omega)
  have hh : hS (rectBlobImg H W r0 r1 c0 c1 bpx gpx) H W y x = 0 := by
    rw [hS, grayR, grayR, grayR, grayR, grayR, grayR,
      reflIdx_sub_one hy, reflIdx_add_one hy,
      reflIdx_sub_one hx, reflIdx_self hx, reflIdx_add_one hx]
    rw [hno (y - 1) (x - 1) (by omega) (by omega) (by omega) (by omega),
      hno (y - 1) x (by omega) (by omega) (by omega) (by omega),
      hno (y - 1) (min (x + 1) (W - 1)) (by omega) (by omega) (by omega) (by omega),
      hno (min (y + 1) (H - 1)) (x - 1) (by omega) (by omega) (by omega) (by omega),
      hno (min (y + 1) (H - 1)) x (by omega) (by omega) (by omega) (by omega),
      hno (min (y + 1) (H - 1)) (min (x + 1) (W - 1)) (by omega) (by omega) (by omega) (by omega)]
    ring
  have hv : vS (rectBlobImg H W r0 r1 c0 c1 bpx gpx) H W y x = 0 := by
    rw [vS, grayR, grayR, grayR, grayR, grayR, grayR,
      reflIdx_sub_one hy, reflIdx_self hy, reflIdx_add_one hy,
      reflIdx_sub_one hx, reflIdx_add_one hx]
    rw [hno (y - 1) (x - 1) (by omega) (by omega) (by omega) (by omega),
      hno y (x - 1) (by omega) (by omega) (by omega) (by omega),
      hno (min (y + 1) (H - 1)) (x - 1) (by omega) (by omega) (by omega) (by omega),
      hno (y - 1) (min (x + 1) (W - 1)) (by omega) (by omega) (by omega) (by omega),
      hno y (min (x + 1) (W - 1)) (by omega) (by omega) (by omega) (by omega),
      hno (min (y + 1) (H - 1)) (min (x + 1) (W - 1)) (by omega) (by omega) (by omega) (by omega)]
    ring
  rw [edgeAt, hh, hv]
  rfl

/-- The mask is on one pixel above the blob's top edge (interior blob of
size at least 3×3, contrast above the threshold). -/
theorem edgeAt_rectBlob_top (H W r0 r1 c0 c1 : Nat) (bpx gpx : Nat → Nat)
    (hr0 : 2 ≤ r0) (hrr : r0 + 2 ≤ r1) (hrH : r1 + 3 ≤ H)
    (hc0 : 2 ≤ c0) (hcc : c0 + 2 ≤ c1) (hcW : c1 + 3 ≤ W)
    (hD : 1300500000 <
      (colorGray gpx - colorGray bpx) * (colorGray gpx - colorGray bpx)) :
    edgeAt (rectBlobImg H W r0 r1 c0 c1 bpx gpx) H W (r0 - 1) (c0 + 1)
      = true := by
  have hy : r0 - 1 < H := by omega
  have hx : c0 + 1 < W := by omega
  have hh : hS (rectBlobImg H W r0 r1 c0 c1 bpx gpx) H W (r0 - 1) (c0 + 1)
      = 4 * (colorGray gpx - colorGray bpx) := by
    rw [hS, grayR, grayR, grayR, grayR, grayR, grayR,
      reflIdx_sub_one hy, reflIdx_add_one hy,
      reflIdx_sub_one hx, reflIdx_self hx, reflIdx_add_one hx,
      (by omega : r0 - 1 - 1 = r0 - 2),
      (by omega : min (r0 - 1 + 1) (H - 1) = r0),
      (by omega : c0 + 1 - 1 = c0),
      (by omega : min (c0 + 1 + 1) (W - 1) = c0 + 2),
      grayVal_rectBlob_bg H W r0 r1 c0 c1 bpx gpx (r0 - 2) c0 (by omega),
      grayVal_rectBlob_bg H W r0 r1 c0 c1 bpx gpx (r0 - 2) (c0 + 1) (by omega),
      grayVal_rectBlob_bg H W r0 r1 c0 c1 bpx gpx (r0 - 2) (c0 + 2) (by omega),
      grayVal_rectBlob_in H W r0 r1 c0 c1 bpx gpx r0 c0
        (by omega) (by omega) (by omega) (by omega),
      grayVal_rectBlob_in H W r0 r1 c0 c1 bpx gpx r0 (c0 + 1)
        (by omega) (by omega) (by omega) (by omega),
      grayVal_rectBlob_in H W r0 r1 c0 c1 bpx gpx r0 (c0 + 2)
        (by omega) (by omega) (by omega) (by omega)]
    ring
  have hv : vS (rectBlobImg H W r0 r1 c0 c1 bpx gpx) H W (r0 - 1) (c0 + 1)
      = 0 := by
    rw [vS, grayR, grayR, grayR, grayR, grayR, grayR,
      reflIdx_sub_one hy, reflIdx_self hy, reflIdx_add_one hy,
      reflIdx_sub_one hx, reflIdx_add_one hx,
      (by omega : r0 - 1 - 1 = r0 - 2),
      (by omega : min (r0 - 1 + 1) (H - 1) = r0),
      (by omega : c0 + 1 - 1 = c0),
      (by omega : min (c0 + 1 + 1) (W - 1) = c0 + 2),
      grayVal_rectBlob_bg H W r0 r1 c0 c1 bpx gpx (r0 - 2) c0 (by omega),
      grayVal_rectBlob_bg H W r0 r1 c0 c1 bpx gpx (r0 - 1) c0 (by omega),
      grayVal_rectBlob_in H W r0 r1 c0 c1 bpx gpx r0 c0
        (by omega) (by omega) (by omega) (by omega),
      grayVal_rectBlob_bg H W r0 r1 c0 c1 bpx gpx (r0 - 2) (c0 + 2) (by omega),
      grayVal_rectBlob_bg H W r0 r1 c0 c1 bpx gpx (r0 - 1) (c0 + 2) (by omega),
      grayVal_rectBlob_in H W r0 r1 c0 c1 bpx gpx r0 (c0 + 2)
        (by omega) (by omega) (by omega) (by omega)]
    ring
  rw [edgeAt, hh, hv, sobelThresholdSq, decide_eq_true_eq]
  nlinarith [hD]

/-- The mask is on one pixel below the blob's bottom edge. -/
theorem edgeAt_rectBlob_bottom (H W r0 r1 c0 c1 : Nat) (bpx gpx : Nat → Nat)
    (hr0 : 2 ≤ r0) (hrr : r0 + 2 ≤ r1) (hrH : r1 + 3 ≤ H)
    (hc0 : 2 ≤ c0) (hcc : c0 + 2 ≤ c1) (hcW : c1 + 3 ≤ W)
    (hD : 1300500000 <
      (colorGray gpx - colorGray bpx) * (colorGray gpx - colorGray bpx)) :
    edgeAt (rectBlobImg H W r0 r1 c0 c1 bpx gpx) H W (r1 + 1) (c0 + 1)
      = true := by
  have hy : r1 + 1 < H := by omega
  have hx : c0 + 1 < W := by omega
  have hh : hS (rectBlobImg H W r0 r1 c0 c1 bpx gpx) H W (r1 + 1) (c0 + 1)
      = 4 * (colorGray bpx - colorGray gpx) := by
    rw [hS, grayR, grayR, grayR, grayR, grayR, grayR,
      reflIdx_sub_one hy, reflIdx_add_one hy,
      reflIdx_sub_one hx, reflIdx_self hx, reflIdx_add_one hx,
      (by omega : r1 + 1 - 1 = r1),
      (by omega : min (r1 + 1 + 1) (H - 1) = r1 + 2),
      (by omega : c0 + 1 - 1 = c0),
      (by omega : min (c0 + 1 + 1) (W - 1) = c0 + 2),
      grayVal_rectBlob_in H W r0 r1 c0 c1 bpx gpx r1 c0
        (by omega) (by omega) (by omega) (by omega),
      grayVal_rectBlob_in H W r0 r1 c0 c1 bpx gpx r1 (c0 + 1)
        (by omega) (by omega) (by omega) (by omega),
      grayVal_rectBlob_in H W r0 r1 c0 c1 bpx gpx r1 (c0 + 2)
        (by omega) (by omega) (by omega) (by omega),
      grayVal_rectBlob_bg H W r0 r1 c0 c1 bpx gpx (r1 + 2) c0 (by omega),
      grayVal_rectBlob_bg H W r0 r1 c0 c1 bpx gpx (r1 + 2) (c0 + 1) (by omega),
      grayVal_rectBlob_bg H W r0 r1 c0 c1 bpx gpx (r1 + 2) (c0 + 2) (by omega)]
    ring
  have hv : vS (rectBlobImg H W r0 r1 c0 c1 bpx gpx) H W (r1 + 1) (c0 + 1)
      = 0 := by
    rw [vS, grayR, grayR, grayR, grayR, grayR, grayR,
      reflIdx_sub_one hy, reflIdx_self hy, reflIdx_add_one hy,
      reflIdx_sub_one hx, reflIdx_add_one hx,
      (by omega : r1 + 1 - 1 = r1),
      (by omega : min (r1 + 1 + 1) (H - 1) = r1 + 2),
      (by omega : c0 + 1 - 1 = c0),
      (by omega : min (c0 + 1 + 1) (W - 1) = c0 + 2),
      grayVal_rectBlob_in H W r0 r1 c0 c1 bpx gpx r1 c0
        (by omega) (by omega) (by omega) (by omega),
      grayVal_rectBlob_bg H W r0 r1 c0 c1 bpx gpx (r1 + 1) c0 (by omega),
      grayVal_rectBlob_bg H W r0 r1 c0 c1 bpx gpx (r1 + 2) c0 (by omega),
      grayVal_rectBlob_in H W r0 r1 c0 c1 bpx gpx r1 (c0 + 2)
        (by omega) (by omega) (by omega) (by omega),
      grayVal_rectBlob_bg H W r0 r1 c0 c1 bpx gpx (r1 + 1) (c0 + 2) (by omega),
      grayVal_rectBlob_bg H W r0 r1 c0 c1 bpx gpx (r1 + 2) (c0 + 2) (by omega)]
    ring
  rw [edgeAt, hh, hv, sobelThresholdSq, decide_eq_true_eq]
  nlinarith [hD]

/-- The mask is on one pixel left of the blob's left edge. -/
theorem edgeAt_rectBlob_left (H W r0 r1 c0 c1 : Nat) (bpx gpx : Nat → Nat)
    (hr0 : 2 ≤ r0) (hrr : r0 + 2 ≤ r1) (hrH : r1 + 3 ≤ H)
    (hc0 : 2 ≤ c0) (hcc : c0 + 2 ≤ c1) (hcW : c1 + 3 ≤ W)
    (hD : 1300500000 <
      (colorGray gpx - colorGray bpx) * (colorGray gpx - colorGray bpx)) :
    edgeAt (rectBlobImg H W r0 r1 c0 c1 bpx gpx) H W (r0 + 1) (c0 - 1)
      = true := by
  have hy : r0 + 1 < H := by omega
  have hx : c0 - 1 < W := by omega
  have hh : hS (rectBlobImg H W r0 r1 c0 c1 bpx gpx) H W (r0 + 1) (c0 - 1)
      = 0 := by
    rw [hS, grayR, grayR, grayR, grayR, grayR, grayR,
      reflIdx_sub_one hy, reflIdx_add_one hy,
      reflIdx_sub_one hx, reflIdx_self hx, reflIdx_add_one hx,
      (by omega : r0 + 1 - 1 = r0),
      (by omega : min (r0 + 1 + 1) (H - 1) = r0 + 2),
      (by omega : c0 - 1 - 1 = c0 - 2),
      (by omega : min (c0 - 1 + 1) (W - 1) = c0),
      grayVal_rectBlob_bg H W r0 r1 c0 c1 bpx gpx r0 (c0 - 2) (by omega),
      grayVal_rectBlob_bg H W r0 r1 c0 c1 bpx gpx r0 (c0 - 1) (by omega),
      grayVal_rectBlob_in H W r0 r1 c0 c1 bpx gpx r0 c0
        (by omega) (by omega) (by omega) (by omega),
      grayVal_rectBlob_bg H W r0 r1 c0 c1 bpx gpx (r0 + 2) (c0 - 2) (by omega),
      grayVal_rectBlob_bg H W r0 r1 c0 c1 bpx gpx (r0 + 2) (c0 - 1) (by omega),
      grayVal_rectBlob_in H W r0 r1 c0 c1 bpx gpx (r0 + 2) c0
        (by omega) (by omega) (by omega) (by omega)]
    ring
  have hv : vS (rectBlobImg H W r0 r1 c0 c1 bpx gpx) H W (r0 + 1) (c0 - 1)
      = 4 * (colorGray gpx - colorGray bpx) := by
    rw [vS, grayR, grayR, grayR, grayR, grayR, grayR,
      reflIdx_sub_one hy, reflIdx_self hy, reflIdx_add_one hy,
      reflIdx_sub_one hx, reflIdx_add_one hx,
      (by omega : r0 + 1 - 1 = r0),
      (by omega : min (r0 + 1 + 1) (H - 1) = r0 + 2),
      (by omega : c0 - 1 - 1 = c0 - 2),
      (by omega : min (c0 - 1 + 1) (W - 1) = c0),
      grayVal_rectBlob_bg H W r0 r1 c0 c1 bpx gpx r0 (c0 - 2) (by omega),
      grayVal_rectBlob_bg H W r0 r1 c0 c1 bpx gpx (r0 + 1) (c0 - 2) (by omega),
      grayVal_rectBlob_bg H W r0 r1 c0 c1 bpx gpx (r0 + 2) (c0 - 2) (by omega),
      grayVal_rectBlob_in H W r0 r1 c0 c1 bpx gpx r0 c0
        (by omega) (by omega) (by omega) (by omega),
      grayVal_rectBlob_in H W r0 r1 c0 c1 bpx gpx (r0 + 1) c0
        (by omega) (by omega) (by omega) (by omega),
      grayVal_rectBlob_in H W r0 r1 c0 c1 bpx gpx (r0 + 2) c0
        (by omega) (by omega) (by omega) (by omega)]
    ring
  rw [edgeAt, hh, hv, sobelThresholdSq, decide_eq_true_eq]
  nlinarith [hD]

/-- The mask is on one pixel right of the blob's right edge. -/
theorem edgeAt_rectBlob_right (H W r0 r1 c0 c1 : Nat) (bpx gpx : Nat → Nat)
    (hr0 : 2 ≤ r0) (hrr : r0 + 2 ≤ r1) (hrH : r1 + 3 ≤ H)
    (hc0 : 2 ≤ c0) (hcc : c0 + 2 ≤ c1) (hcW : c1 + 3 ≤ W)
    (hD : 1300500000 <
      (colorGray gpx - colorGray bpx) * (colorGray gpx - colorGray bpx)) :
    edgeAt (rectBlobImg H W r0 r1 c0 c1 bpx gpx) H W (r0 + 1) (c1 + 1)
      = true := by
  have hy : r0 + 1 < H := by omega
  have hx : c1 + 1 < W := by omega
  have hh : hS (rectBlobImg H W r0 r1 c0 c1 bpx gpx) H W (r0 + 1) (c1 + 1)
      = 0 := by
    rw [hS, grayR, grayR, grayR, grayR, grayR, grayR,
      reflIdx_sub_one hy, reflIdx_add_one hy,
      reflIdx_sub_one hx, reflIdx_self hx, reflIdx_add_one hx,
      (by omega : r0 + 1 - 1 = r0),
      (by omega : min (r0 + 1 + 1) (H - 1) = r0 + 2),
      (by omega : c1 + 1 - 1 = c1),
      (by omega : min (c1 + 1 + 1) (W - 1) = c1 + 2),
      grayVal_rectBlob_in H W r0 r1 c0 c1 bpx gpx r0 c1
        (by omega) (by omega) (by omega) (by omega),
      grayVal_rectBlob_bg H W r0 r1 c0 c1 bpx gpx r0 (c1 + 1) (by omega),
      grayVal_rectBlob_bg H W r0 r1 c0 c1 bpx gpx r0 (c1 + 2) (by omega),
      grayVal_rectBlob_in H W r0 r1 c0 c1 bpx gpx (r0 + 2) c1
        (by omega) (by omega) (by omega) (by omega),
      grayVal_rectBlob_bg H W r0 r1 c0 c1 bpx gpx (r0 + 2) (c1 + 1) (by omega),
      grayVal_rectBlob_bg H W r0 r1 c0 c1 bpx gpx (r0 + 2) (c1 + 2) (by omega)]
    ring
  have hv : vS (rectBlobImg H W r0 r1 c0 c1 bpx gpx) H W (r0 + 1) (c1 + 1)
      = 4 * (colorGray bpx - colorGray gpx) := by
    rw [vS, grayR, grayR, grayR, grayR, grayR, grayR,
      reflIdx_sub_one hy, reflIdx_self hy, reflIdx_add_one hy,
      reflIdx_sub_one hx, reflIdx_add_one hx,
      (by omega : r0 + 1 - 1 = r0),
      (by omega : min (r0 + 1 + 1) (H - 1) = r0 + 2),
      (by omega : c1 + 1 - 1 = c1),
      (by omega : min (c1 + 1 + 1) (W - 1) = c1 + 2),
      grayVal_rectBlob_in H W r0 r1 c0 c1 bpx gpx r0 c1
        (by omega) (by omega) (by omega) (by omega),
      grayVal_rectBlob_in H W r0 r1 c0 c1 bpx gpx (r0 + 1) c1
        (by omega) (by omega) (by omega) (by omega),
      grayVal_rectBlob_in H W r0 r1 c0 c1 bpx gpx (r0 + 2) c1
        (by omega) (by omega) (by omega) (by omega),
      grayVal_rectBlob_bg H W r0 r1 c0 c1 bpx gpx r0 (c1 + 2) (by omega),
      grayVal_rectBlob_bg H W r0 r1 c0 c1 bpx gpx (r0 + 1) (c1 + 2) (by omega),
      grayVal_rectBlob_bg H W r0 r1 c0 c1 bpx gpx (r0 + 2) (c1 + 2) (by omega)]
    ring
  rw [edgeAt, hh, hv, sobelThresholdSq, decide_eq_true_eq]
  nlinarith [hD]

/-- C3 (amended): for an interior rectangular content blob (size at
least 3×3, two background pixels of margin, contrast above the edge
threshold) on a uniform background, the content mask's bounding box is
the blob rectangle dilated by exactly one pixel — the Sobel response
ring — so the crop `autocrop_image` writes is that dilated box expanded
by the padding constant (20 in the app, 15 in the script) and clamped
to the image extent, as exclusive slice bounds: rows
`[max(0, r0-1-padding), min(H, r1+1+padding))` and columns likewise —
one pixel more than the claim's "blob extent expanded by the padding"
on the top and left sides. -/
theorem autocrop_rectBlob (H W r0 r1 c0 c1 : Nat) (bpx gpx : Nat → Nat)
    (padding : Nat)
    (hr0 : 2 ≤ r0) (hrr : r0 + 2 ≤ r1) (hrH : r1 + 3 ≤ H)
    (hc0 : 2 ≤ c0) (hcc : c0 + 2 ≤ c1) (hcW : c1 + 3 ≤ W)
    (hD : 1300500000 <
      (colorGray gpx - colorGray bpx) * (colorGray gpx - colorGray bpx)) :
    autocrop_image (.ok (rectBlobImg H W r0 r1 c0 c1 bpx gpx)) padding =
      .wroteCrop (max 0 ((r0 : Int) - 1 - padding))
        (max 0 ((c0 : Int) - 1 - padding))
        (min (H : Int) ((r1 : Int) + 1 + padding))
        (min (W : Int) ((c1 : Int) + 1 + padding)) 3 := by
  have htop : ((r0 - 1 : Nat), (c0 + 1 : Nat)) ∈
      coords (rectBlobImg H W r0 r1 c0 c1 bpx gpx) H W :=
    mem_coords.mpr ⟨by omega, by omega,
      edgeAt_rectBlob_top H W r0 r1 c0 c1 bpx gpx hr0 hrr hrH hc0 hcc hcW hD⟩
  have hbot : ((r1 + 1 : Nat), (c0 + 1 : Nat)) ∈
      coords (rectBlobImg H W r0 r1 c0 c1 bpx gpx) H W :=
    mem_coords.mpr ⟨by omega, by omega,
      edgeAt_rectBlob_bottom H W r0 r1 c0 c1 bpx gpx hr0 hrr hrH hc0 hcc hcW hD⟩
  have hleft : ((r0 + 1 : Nat), (c0 - 1 : Nat)) ∈
      coords (rectBlobImg H W r0 r1 c0 c1 bpx gpx) H W :=
    mem_coords.mpr ⟨by omega, by omega,
      edgeAt_rectBlob_left H W r0 r1 c0 c1 bpx gpx hr0 hrr hrH hc0 hcc hcW hD⟩
  have hright : ((r0 + 1 : Nat), (c1 + 1 : Nat)) ∈
      coords (rectBlobImg H W r0 r1 c0 c1 bpx gpx) H W :=
    mem_coords.mpr ⟨by omega, by omega,
      edgeAt_rectBlob_right H W r0 r1 c0 c1 bpx gpx hr0 hrr hrH hc0 hcc hcW hD⟩
  have hband : ∀ c ∈ coords (rectBlobImg H W r0 r1 c0 c1 bpx gpx) H W,
      r0 - 1 ≤ c.1 ∧ c.1 ≤ r1 + 1 ∧ c0 - 1 ≤ c.2 ∧ c.2 ≤ c1 + 1 := by
    intro c hc
    obtain ⟨h1, h2, h3⟩ := mem_coords.mp hc
    by_contra hcon
    rw [edgeAt_rectBlob_out H W r0 r1 c0 c1 bpx gpx c.1 c.2 h1 h2
      (by omega)] at h3
    exact Bool.noConfusion h3
  have hne : coords (rectBlobImg H W r0 r1 c0 c1 bpx gpx) H W ≠ [] :=
    List.ne_nil_of_mem htop
  have hminf :
      listMin ((coords (rectBlobImg H W r0 r1 c0 c1 bpx gpx) H W).map
        Prod.fst) = r0 - 1 := by
    apply listMin_eq (List.mem_map_of_mem Prod.fst htop)
    intro b hb
    obtain ⟨c, hc, rfl⟩ := List.mem_map.mp hb
    exact (hband c hc).1
  have hmaxf :
      listMax ((coords (rectBlobImg H W r0 r1 c0 c1 bpx gpx) H W).map
        Prod.fst) = r1 + 1 := by
    apply listMax_eq (List.mem_map_of_mem Prod.fst hbot)
    intro b hb
    obtain ⟨c, hc, rfl⟩ := List.mem_map.mp hb
    exact (hband c hc).2.1
  have hmins :
      listMin ((coords (rectBlobImg H W r0 r1 c0 c1 bpx gpx) H W).map
        Prod.snd) = c0 - 1 := by
    apply listMin_eq (List.mem_map_of_mem Prod.snd hleft)
    intro b hb
    obtain ⟨c, hc, rfl⟩ := List.mem_map.mp hb
    exact (hband c hc).2.2.1
  have hmaxs :
      listMax ((coords (rectBlobImg H W r0 r1 c0 c1 bpx gpx) H W).map
        Prod.snd) = c1 + 1 := by
    apply listMax_eq (List.mem_map_of_mem Prod.snd hright)
    intro b hb
    obtain ⟨c, hc, rfl⟩ := List.mem_map.mp hb
    exact (hband c hc).2.2.2
  have hstep : autocropCore (rectBlobImg H W r0 r1 c0 c1 bpx gpx) padding =
      if coords (rectBlobImg H W r0 r1 c0 c1 bpx gpx) H W = [] then
        Except.ok CropOut.copiedOriginal
      else
        Except.ok (CropOut.wroteCrop
          (max 0 ((listMin ((coords (rectBlobImg H W r0 r1 c0 c1 bpx gpx)
            H W).map Prod.fst) : Int) - padding))
          (max 0 ((listMin ((coords (rectBlobImg H W r0 r1 c0 c1 bpx gpx)
            H W).map Prod.snd) : Int) - padding))
          (min (H : Int) ((listMax ((coords (rectBlobImg H W r0 r1 c0 c1
            bpx gpx) H W).map Prod.fst) : Int) + padding))
          (min (W : Int) ((listMax ((coords (rectBlobImg H W r0 r1 c0 c1
            bpx gpx) H W).map Prod.snd) : Int) + padding)) 3) := rfl
  have hwhole : autocrop_image
      (.ok (rectBlobImg H W r0 r1 c0 c1 bpx gpx)) padding =
      match autocropCore (rectBlobImg H W r0 r1 c0 c1 bpx gpx) padding with
      | .ok out => out
      | .error _ => .copiedOriginal := rfl
  rw [hwhole, hstep, if_neg hne, hminf, hmaxf, hmins, hmaxs,
    (by omega : ((r0 - 1 : Nat) : Int) - padding = (r0 : Int) - 1 - padding),
    (by omega : ((c0 - 1 : Nat) : Int) - padding = (c0 : Int) - 1 - padding),
    (by omega : ((r1 + 1 : Nat) : Int) + padding = (r1 : Int) + 1 + padding),
    (by omega : ((c1 + 1 : Nat) : Int) + padding = (c1 : Int) + 1 + padding)]

/-! ## Claim theorems -/

/-- C2: for every input — including a corrupt, empty or unreadable file
(`LoadInput.err`) — `autocrop_image` never lets an exception past its
boundary: a failed load copies the original, and any exception escaping
the processing body (`autocropCore = .error`) also copies the
original. -/
theorem C2_autocrop_never_raises :
    (∀ padding : Nat, autocrop_image .err padding = .copiedOriginal) ∧
    (∀ (img : Img) (padding : Nat),
      autocropCore img padding = .error () →
      autocrop_image (.ok img) padding = .copiedOriginal) := by
  constructor
  · intro _
    rfl
  · intro img padding h
    have hw : autocrop_image (.ok img) padding =
        match autocropCore img padding with
        | .ok out => out
        | .error _ => .copiedOriginal := rfl
    rw [hw, h]

/-- C2 witness: a grayscale (2-D) array makes `image.shape[2]` raise, and
the function degrades to a copy; the corrupt-file case is immediate. -/
theorem C2_witness :
    autocropCore ⟨[4, 4], fun _ _ _ => 7⟩ appPadding = .error () ∧
    autocrop_image (.ok ⟨[4, 4], fun _ _ _ => 7⟩) appPadding
      = .copiedOriginal ∧
    autocrop_image .err appPadding = .copiedOriginal :=
  ⟨rfl, C2_autocrop_never_raises.2 ⟨[4, 4], fun _ _ _ => 7⟩ appPadding rfl,
    C2_autocrop_never_raises.1 appPadding⟩

/-- C3 counterexample: an 8×26 image with a black 3×3 blob at rows 2–4,
columns 21–23, on white background. The claim predicts the crop slice
`[max(0,2-20), min(8,4+20+1)) × [max(0,21-20), min(26,23+20+1))`, i.e.
columns from 1 — but the Sobel mask extends one pixel beyond the blob,
so the code crops columns from 0. -/
theorem C3_counterexample :
    autocrop_image
        (.ok (rectBlobImg 8 26 2 4 21 23 (fun _ => 0) (fun _ => 255)))
        appPadding
      = .wroteCrop 0 0 8 26 3 ∧
    CropOut.wroteCrop 0 0 8 26 3 ≠
      .wroteCrop (max 0 ((2 : Int) - 20)) (max 0 ((21 : Int) - 20))
        (min (8 : Int) ((4 : Int) + 20 + 1))
        (min (26 : Int) ((23 : Int) + 20 + 1)) 3 := by
  constructor
  · decide
  · decide

/-- C3 witness for the amended claim: an 8×8 image, black 3×3 blob at
rows and columns 2–4 on white; the crop is the blob dilated by one
pixel, padded by 20 and clamped. -/
theorem C3_witness :
    autocrop_image
        (.ok (rectBlobImg 8 8 2 4 2 4 (fun _ => 0) (fun _ => 255)))
        appPadding
      = .wroteCrop (max 0 ((2 : Int) - 1 - 20)) (max 0 ((2 : Int) - 1 - 20))
          (min (8 : Int) ((4 : Int) + 1 + 20))
          (min (8 : Int) ((4 : Int) + 1 + 20)) 3 :=
  autocrop_rectBlob 8 8 2 4 2 4 (fun _ => 0) (fun _ => 255) 20
    (by omega) (by omega) (by omega) (by omega) (by omega) (by omega)
    (by decide)

/-- C6: when no pixel of the Sobel edge map exceeds the threshold
(`coords = []`), `autocrop_image` performs `shutil.copy` — a
byte-identical copy of the input file, not an `io.imsave` re-encode. -/
theorem C6_no_content_copies (img : Img) (H W c padding : Nat)
    (hs : img.shape = [H, W, c]) (hc : c = 3 ∨ c = 4)
    (hcs : coords img H W = []) :
    autocrop_image (.ok img) padding = .copiedOriginal := by
  have hw : autocrop_image (.ok img) padding =
      match autocropCore img padding with
      | .ok out => out
      | .error _ => .copiedOriginal := rfl
  have hcore : autocropCore img padding = .ok .copiedOriginal := by
    rw [autocropCore.eq_def, hs]
    rcases hc with rfl | rfl <;> simp [hcs]
  rw [hw, hcore]

/-- C6 witness: a uniform 3×3 image has an empty mask and is copied. -/
theorem C6_witness :
    coords ⟨[3, 3, 3], fun _ _ _ => 77⟩ 3 3 = [] ∧
    autocrop_image (.ok ⟨[3, 3, 3], fun _ _ _ => 77⟩) appPadding
      = .copiedOriginal :=
  ⟨by decide, C6_no_content_copies ⟨[3, 3, 3], fun _ _ _ => 77⟩ 3 3 3
    appPadding rfl (Or.inl rfl) (by decide)⟩

/-- C10: for a 4-channel image the alpha channel is stripped before
analysis and never restored: if content is detected, the file written is
a 3-channel crop; if no content is detected, the original file (alpha
included) is copied byte-for-byte. -/
theorem C10_alpha_channel (img : Img) (H W padding : Nat)
    (hs : img.shape = [H, W, 4]) :
    (coords img H W ≠ [] →
      ∃ y0 x0 y1 x1 : Int,
        autocrop_image (.ok img) padding = .wroteCrop y0 x0 y1 x1 3) ∧
    (coords img H W = [] →
      autocrop_image (.ok img) padding = .copiedOriginal) := by
  have hw : autocrop_image (.ok img) padding =
      match autocropCore img padding with
      | .ok out => out
      | .error _ => .copiedOriginal := rfl
  constructor
  · intro hne
    have hcore : autocropCore img padding = .ok (.wroteCrop
        (max 0 ((listMin ((coords img H W).map Prod.fst) : Int) - padding))
        (max 0 ((listMin ((coords img H W).map Prod.snd) : Int) - padding))
        (min (H : Int) ((listMax ((coords img H W).map Prod.fst) : Int) + padding))
        (min (W : Int) ((listMax ((coords img H W).map Prod.snd) : Int) + padding))
        3) := by
      rw [autocropCore.eq_def, hs]
      simp [hne]
    exact ⟨_, _, _, _, by rw [hw, hcore]⟩
  · intro he
    have hcore : autocropCore img padding = .ok .copiedOriginal := by
      rw [autocropCore.eq_def, hs]
      simp [he]
    rw [hw, hcore]

/-- C10 witness: a 4×4 4-channel image, black left half and white right
half, has content and is written as a 3-channel crop. -/
theorem C10_witness :
    coords ⟨[4, 4, 4], fun _ x _ => if x < 2 then 0 else 255⟩ 4 4 ≠ [] ∧
    ∃ y0 x0 y1 x1 : Int,
      autocrop_image (.ok ⟨[4, 4, 4], fun _ x _ => if x < 2 then 0 else 255⟩)
        appPadding = .wroteCrop y0 x0 y1 x1 3 :=
  ⟨by decide,
    (C10_alpha_channel ⟨[4, 4, 4], fun _ x _ => if x < 2 then 0 else 255⟩
      4 4 appPadding rfl).1 (by decide)⟩

/-- C4: the fit-to-box rule of `add_question_slide` for the `5.0 × 7.0`
content box: a wide image (`7r > 5`) gets width 5 and height `5/r`, any
other image gets height 7 and width `7r`; the result preserves the
aspect ratio, never exceeds either box dimension, and in particular
`r = 2` gives `(5, 2.5)` and `r = 1/2` gives `(3.5, 7)`. -/
theorem C4_fit_to_box (r : Rat) (hr : 0 ≤ r) :
    (7 * r > 5 → fitSize r = (5, 5 / r)) ∧
    (¬(7 * r > 5) → fitSize r = (7 * r, 7)) ∧
    (fitSize r).1 / (fitSize r).2 = r ∧
    (fitSize r).1 ≤ 5 ∧ (fitSize r).2 ≤ 7 ∧
    fitSize 2 = (5, 5 / 2) ∧ fitSize (1 / 2) = (7 / 2, 7) := by
  by_cases h : 7 * r > 5
  · have hpos : 0 < r := by linarith
    have hfit : fitSize r = (5, 5 / r) := by rw [fitSize, if_pos h]
    refine ⟨fun _ => hfit, fun hc => absurd h hc, ?_, ?_, ?_, ?_, ?_⟩
    · rw [hfit]
      field_simp
    · rw [hfit]
    · rw [hfit]
      show 5 / r ≤ 7
      rw [div_le_iff₀ hpos]
      linarith
    · rw [fitSize, if_pos (by norm_num)]
    · rw [fitSize, if_neg (by norm_num)]
      norm_num
  · have hfit : fitSize r = (7 * r, 7) := by rw [fitSize, if_neg h]
    refine ⟨fun hc => absurd hc h, fun _ => hfit, ?_, ?_, ?_, ?_, ?_⟩
    · rw [hfit]
      show 7 * r / 7 = r
      ring
    · rw [hfit]
      show 7 * r ≤ 5
      linarith
    · rw [hfit]
    · rw [fitSize, if_pos (by norm_num)]
    · rw [fitSize, if_neg (by norm_num)]
      norm_num

/-- C4 witness: the two concrete aspect ratios of the claim. -/
theorem C4_witness :
    fitSize 2 = (5, 5 / 2) ∧ fitSize (1 / 2) = (7 / 2, 7) ∧
    (fitSize 2).1 ≤ 5 ∧ (fitSize 2).2 ≤ 7 :=
  ⟨(C4_fit_to_box 2 (by norm_num)).2.2.2.2.2.1,
    (C4_fit_to_box 2 (by norm_num)).2.2.2.2.2.2,
    (C4_fit_to_box 2 (by norm_num)).2.2.2.1,
    (C4_fit_to_box 2 (by norm_num)).2.2.2.2.1⟩

/-- C5: the content picture placed by `add_question_slide` for a
readable `w × h` image sits at
`left = 0.5 + (5 - finalWidth)/2`, `top = 1.5 + (7 - finalHeight)/2`,
with `(finalWidth, finalHeight)` the fit-to-box size for aspect ratio
`w/h` — i.e. centered in the content region anchored at `(0.5, 1.5)`. -/
theorem C5_content_centered (env : Env) (bgPath imagePath : String)
    (n w h : Nat) (hbg : env.bgOk = true)
    (hr : env.readImage imagePath = some (w, h)) (hh : h ≠ 0) :
    ∃ cpic : Picture,
      add_question_slide env bgPath n imagePath =
        .ok (stdSlide bgPath ("Question " ++ toString n) ++ [.pic cpic]) ∧
      slidePics (stdSlide bgPath ("Question " ++ toString n) ++ [.pic cpic])
        = [bgPicture bgPath, cpic] ∧
      cpic.width = (fitSize ((w : Rat) / (h : Rat))).1 ∧
      cpic.height = (fitSize ((w : Rat) / (h : Rat))).2 ∧
      cpic.left = 1 / 2 + (5 - cpic.width) / 2 ∧
      cpic.top = 3 / 2 + (7 - cpic.height) / 2 := by
  refine ⟨contentPicture imagePath w h, ?_, ?_, rfl, rfl, rfl, rfl⟩
  · rw [add_question_slide_ok env hbg, qSlideOk, hr]
    simp [hh]
  · rw [slidePics_append_pic, slidePics_stdSlide]
    rfl

/-- C5 witness: an environment reading an 80×40 image (aspect ratio 2)
for question 1. -/
theorem C5_witness :
    ∃ cpic : Picture,
      add_question_slide ⟨true, fun _ => some (80, 40)⟩ "bg.png" 1 "q1.png" =
        .ok (stdSlide "bg.png" ("Question " ++ toString 1) ++ [.pic cpic]) ∧
      slidePics (stdSlide "bg.png" ("Question " ++ toString 1) ++ [.pic cpic])
        = [bgPicture "bg.png", cpic] ∧
      cpic.width = (fitSize ((80 : Rat) / (40 : Rat))).1 ∧
      cpic.height = (fitSize ((80 : Rat) / (40 : Rat))).2 ∧
      cpic.left = 1 / 2 + (5 - cpic.width) / 2 ∧
      cpic.top = 3 / 2 + (7 - cpic.height) / 2 :=
  C5_content_centered ⟨true, fun _ => some (80, 40)⟩ "bg.png" "q1.png" 1 80 40
    rfl rfl (by norm_num)

theorem enumFrom_getElem_opt {α : Type} :
    ∀ (l : List α) (n k : Nat),
      (List.enumFrom n l)[k]? = (l[k]?).map fun a => (n + k, a)
  | [], n, k => by simp
  | a :: l, n, 0 => by simp
  | a :: l, n, k + 1 => by
    rw [List.enumFrom, List.getElem?_cons_succ, List.getElem?_cons_succ,
      enumFrom_getElem_opt l (n + 1) k]
    have harith : n + 1 + k = n + (k + 1) := by ring
    rw [harith]

theorem deck_getElem_question (env : Env) (bgPath folder : String)
    (files : List String) (k : Nat) (hk : k < files.length) :
    (([stdSlide bgPath introTitle, stdSlide bgPath "Welcome & Objectives"]
      ++ qsSlidesOk env bgPath folder files.enum
      ++ [stdSlide bgPath "Thank You & Q/A"]) : List Slide)[2 + 2 * k]? =
      some (qSlideOk env bgPath (k + 1) (croppedPath folder (k + 1))) := by
  simp only [List.cons_append, List.nil_append]
  rw [(by ring : 2 + 2 * k = 2 * k + 1 + 1),
    List.getElem?_cons_succ, List.getElem?_cons_succ,
    List.getElem?_append_left (by simp [qsSlidesOk_length]; omega),
    show files.enum = List.enumFrom 0 files from rfl,
    qsSlidesOk_getElem_even env bgPath folder files 0 k,
    List.getElem?_eq_getElem hk]
  simp

/-- C1 counterexample: the repository has a second deck builder — the
module-level script of `src/utils/generate_ppt.py` — and for N = 1
question image it emits 10 = 4 + 3·1 + 3 slides, not 2 + 2·1 + 1 = 5. -/
theorem C1_counterexample :
    ∃ deck, script_presentation ⟨true, fun _ => none⟩ 1 = .ok deck ∧
      deck.length = 10 ∧ deck.length ≠ 2 + 2 * 1 + 1 :=
  ⟨_, rfl, by decide, by decide⟩

/-- C1 (amended): the web app's builder `create_presentation` produces,
for every list of N question images, exactly 2 + 2N + 1 slides in the
fixed order — 2 intro, then for each i a "Question i" slide followed by
a "Solution for Question i" slide, then the closing slide — and the
k-th (0-based) input file is cropped into `cropped_q{k+1}.png`, which is
the image placed on the slide indexed 2+2k, titled "Question {k+1}".
The standalone script builder instead produces 4 + 3N + 3 slides: 4
intro, then per question a question slide and a two-part solution, then
3 closing slides, with the same "Question {i}" numbering. -/
theorem C1_deck_structure (env : Env) (bgPath folder : String)
    (files : List String) (hbg : env.bgOk = true) :
    (∃ deck, create_presentation env bgPath folder files = .ok deck ∧
      deck.length = 2 + 2 * files.length + 1 ∧
      deck.map slideTitle =
        [some introTitle, some "Welcome & Objectives"]
        ++ ((List.range' 1 files.length).flatMap fun k =>
            [some ("Question " ++ toString k),
             some ("Solution for Question " ++ toString k)])
        ++ [some "Thank You & Q/A"] ∧
      (∀ k, k < files.length →
        deck[2 + 2 * k]? =
          some (qSlideOk env bgPath (k + 1) (croppedPath folder (k + 1)))) ∧
      (∀ k f, files[k]? = some f →
        (cropOps folder files)[k]? = some (f, croppedPath folder (k + 1))) ∧
      (∀ k w h, k < files.length →
        env.readImage (croppedPath folder (k + 1)) = some (w, h) → h ≠ 0 →
        ∃ s, deck[2 + 2 * k]? = some s ∧
          contentPicture (croppedPath folder (k + 1)) w h ∈ slidePics s)) ∧
    ∀ n : Nat, ∃ sdeck, script_presentation env n = .ok sdeck ∧
      sdeck.length = 4 + 3 * n + 3 ∧
      sdeck.map slideTitle =
        [some introTitle, some "Welcome & Objectives",
         some "How to Use This Deck", some "Table of Contents"]
        ++ ((List.range n).flatMap fun i =>
            [some ("Question " ++ toString (i + 1)),
             some ("Solution for Question " ++ toString (i + 1) ++ " (Part 1)"),
             some ("Solution for Question " ++ toString (i + 1) ++ " (Part 2)")])
        ++ [some "End of Problem Set", some "Key Takeaways & Formulas",
            some "Thank You & Q/A"] := by
  constructor
  · refine ⟨_, create_presentation_ok env hbg bgPath folder files, ?_, ?_, ?_, ?_, ?_⟩
    · simp [List.length_append, qsSlidesOk_length]
      omega
    · rw [List.map_append, List.map_append]
      rw [show files.enum = List.enumFrom 0 files from rfl,
        qsSlidesOk_titles env bgPath folder files 0]
      simp [slideTitle_stdSlide]
    · intro k hk
      exact deck_getElem_question env bgPath folder files k hk
    · intro k f hkf
      rw [cropOps, List.getElem?_map,
        show files.enum = List.enumFrom 0 files from rfl,
        enumFrom_getElem_opt files 0 k, hkf]
      simp
    · intro k w h hk hread hh
      refine ⟨qSlideOk env bgPath (k + 1) (croppedPath folder (k + 1)), ?_, ?_⟩
      · exact deck_getElem_question env bgPath folder files k hk
      · rw [qSlideOk, hread]
        simp [hh, slidePics_append_pic, slidePics_stdSlide]
  · intro n
    refine ⟨_, script_presentation_ok env hbg n, ?_, ?_⟩
    · simp [List.length_append, scriptQsSlidesOk_length]
      omega
    · rw [List.map_append, List.map_append, scriptQsSlidesOk_titles env]
      simp [slideTitle_stdSlide]

/-- C1 witness: one question image, background readable. -/
theorem C1_witness :
    ∃ deck, create_presentation ⟨true, fun _ => none⟩ "bg.png" "f" ["a.png"]
        = .ok deck ∧
      deck.length = 2 + 2 * 1 + 1 ∧
      ∀ k f, (["a.png"] : List String)[k]? = some f →
        (cropOps "f" ["a.png"])[k]? = some (f, croppedPath "f" (k + 1)) := by
  obtain ⟨⟨deck, h1, h2, _, _, h5, _⟩, _⟩ :=
    C1_deck_structure ⟨true, fun _ => none⟩ "bg.png" "f" ["a.png"] rfl
  exact ⟨deck, h1, h2, h5⟩

/-- C7 counterexample: the web app's builder, given an empty
question-image list (and a readable background), does not fail — it
silently yields a 3-slide deck (2 intro + 1 closing) with no question
slides. -/
theorem C7_counterexample :
    create_presentation ⟨true, fun _ => none⟩ "bg.png" "f" [] =
      .ok [stdSlide "bg.png" introTitle,
        stdSlide "bg.png" "Welcome & Objectives",
        stdSlide "bg.png" "Thank You & Q/A"] ∧
    ∀ e : Unit,
      create_presentation ⟨true, fun _ => none⟩ "bg.png" "f" [] ≠
        .error e := by
  constructor
  · rfl
  · intro e h
    rw [show create_presentation ⟨true, fun _ => none⟩ "bg.png" "f" [] =
        .ok [stdSlide "bg.png" introTitle,
          stdSlide "bg.png" "Welcome & Objectives",
          stdSlide "bg.png" "Thank You & Q/A"] from rfl] at h
    exact Except.noConfusion h

/-- C7 (amended): in the web app builder a missing background image is a
hard failure (the unguarded `add_picture` on the first slide raises and
propagates out of `create_presentation`), but an empty question list is
not — it silently degrades to a 3-slide deck. Only the standalone
script rejects a missing background and an empty image list up front
with a hard exit. -/
theorem C7_structural_failures :
    (∀ (env : Env) (bgPath folder : String) (files : List String),
      env.bgOk = false →
      create_presentation env bgPath folder files = .error ()) ∧
    (∀ (env : Env) (bgPath folder : String), env.bgOk = true →
      ∃ deck, create_presentation env bgPath folder [] = .ok deck ∧
        deck.length = 3) ∧
    (∀ (env : Env) (files : List String),
      script_main true false env files = .error ()) ∧
    (∀ (env : Env) (bgExists : Bool),
      script_main true bgExists env [] = .error ()) := by
  refine ⟨?_, ?_, ?_, ?_⟩
  · intro env bgPath folder files h
    exact create_presentation_err env h bgPath folder files
  · intro env bgPath folder h
    exact ⟨_, create_presentation_ok env h bgPath folder [], rfl⟩
  · intro env files
    rfl
  · intro env bgExists
    cases bgExists <;> rfl

/-- C7 witness: concrete instances of all four behaviors. -/
theorem C7_witness :
    create_presentation ⟨false, fun _ => none⟩ "bg.png" "f" ["a.png"]
      = .error () ∧
    (∃ deck, create_presentation ⟨true, fun _ => none⟩ "bg.png" "f" []
      = .ok deck ∧ deck.length = 3) ∧
    script_main true false ⟨true, fun _ => none⟩ ["a.png"] = .error () ∧
    script_main true true ⟨true, fun _ => none⟩ [] = .error () :=
  ⟨C7_structural_failures.1 ⟨false, fun _ => none⟩ "bg.png" "f" ["a.png"] rfl,
    C7_structural_failures.2.1 ⟨true, fun _ => none⟩ "bg.png" "f" rfl,
    C7_structural_failures.2.2.1 ⟨true, fun _ => none⟩ ["a.png"],
    C7_structural_failures.2.2.2 ⟨true, fun _ => none⟩ true⟩

/-- C8: when the content image of a question slide cannot be read or
placed (`readImage = none`, covering a missing file or a decode error
inside the `try` block), the slide still exists with its
"Question {n}" title and its background picture, merely without a
content picture — and the deck's slide count is unchanged, still
2 + 2N + 1. -/
theorem C8_question_slide_degrades (env : Env)
    (bgPath imagePath folder : String) (n : Nat) (files : List String)
    (hbg : env.bgOk = true) (hr : env.readImage imagePath = none) :
    add_question_slide env bgPath n imagePath =
      .ok (stdSlide bgPath ("Question " ++ toString n)) ∧
    slideTitle (stdSlide bgPath ("Question " ++ toString n)) =
      some ("Question " ++ toString n) ∧
    slidePics (stdSlide bgPath ("Question " ++ toString n)) =
      [bgPicture bgPath] ∧
    ∃ deck, create_presentation env bgPath folder files = .ok deck ∧
      deck.length = 2 + 2 * files.length + 1 := by
  refine ⟨?_, slideTitle_stdSlide bgPath _, slidePics_stdSlide bgPath _,
    _, create_presentation_ok env hbg bgPath folder files, ?_⟩
  · rw [add_question_slide_ok env hbg, qSlideOk, hr]
  · simp [List.length_append, qsSlidesOk_length]
    omega

/-- C8 witness: an environment in which no image is readable. -/
theorem C8_witness :
    add_question_slide ⟨true, fun _ => none⟩ "bg.png" 3 "missing.png" =
      .ok (stdSlide "bg.png" ("Question " ++ toString 3)) ∧
    slidePics (stdSlide "bg.png" ("Question " ++ toString 3)) =
      [bgPicture "bg.png"] ∧
    ∃ deck, create_presentation ⟨true, fun _ => none⟩ "bg.png" "f"
        ["a.png", "b.png"] = .ok deck ∧ deck.length = 2 + 2 * 2 + 1 := by
  obtain ⟨h1, _, h3, h4⟩ := C8_question_slide_degrades
    ⟨true, fun _ => none⟩ "bg.png" "missing.png" "f" 3
    ["a.png", "b.png"] rfl rfl
  exact ⟨h1, h3, h4⟩

/-- C9: on every slide of every deck the web app builder produces, the
background picture spans the full 16×9 canvas from (0,0) and is the
bottom-most shape: the `spTree` is back-to-front z-order, and after the
`remove`/`insert(2, ...)` reordering the background picture is the first
shape, with the title box and any content picture after (above) it. -/
theorem C9_background_bottom (env : Env) (bgPath folder : String)
    (files : List String) (deck : List Slide) (hbg : env.bgOk = true)
    (hd : create_presentation env bgPath folder files = .ok deck) :
    (bgPicture bgPath).left = 0 ∧ (bgPicture bgPath).top = 0 ∧
    (bgPicture bgPath).width = 16 ∧ (bgPicture bgPath).height = 9 ∧
    (∀ titleText, ∃ rest, slideShapes (stdSlide bgPath titleText) =
      .pic (bgPicture bgPath) :: rest) ∧
    ∀ s ∈ deck, ∃ rest,
      slideShapes s = .pic (bgPicture bgPath) :: rest := by
  refine ⟨rfl, rfl, rfl, rfl, ?_, ?_⟩
  · intro titleText
    exact ⟨_, slideShapes_stdSlide bgPath titleText⟩
  · rw [create_presentation_ok env hbg bgPath folder files] at hd
    injection hd with hdeck
    subst hdeck
    intro s hs
    simp only [List.cons_append, List.nil_append, List.mem_cons,
      List.mem_append, List.mem_singleton] at hs
    rcases hs with rfl | rfl | hs | rfl | h0
    · exact ⟨_, slideShapes_stdSlide bgPath _⟩
    · exact ⟨_, slideShapes_stdSlide bgPath _⟩
    · rcases qsSlidesOk_mem env bgPath folder files.enum s hs with
        ⟨m, p, rfl⟩ | ⟨t, rfl⟩
      · exact slideShapes_qSlideOk env bgPath m p
      · exact ⟨_, slideShapes_stdSlide bgPath t⟩
    · exact ⟨_, slideShapes_stdSlide bgPath _⟩
    · exact absurd h0 (List.not_mem_nil s)

/-- C9 witness: on the title slide of the app builder's empty-question
deck, the background picture is the bottom-most shape. -/
theorem C9_witness :
    ∃ rest, slideShapes (stdSlide "bg.png" introTitle) =
      .pic (bgPicture "bg.png") :: rest :=
  (C9_background_bottom ⟨true, fun _ => none⟩ "bg.png" "f" []
    [stdSlide "bg.png" introTitle,
      stdSlide "bg.png" "Welcome & Objectives",
      stdSlide "bg.png" "Thank You & Q/A"] rfl rfl).2.2.2.2.2
    (stdSlide "bg.png" introTitle)
    (List.mem_cons_self (stdSlide "bg.png" introTitle)
      [stdSlide "bg.png" "Welcome & Objectives",
        stdSlide "bg.png" "Thank You & Q/A"])
